import Mathlib

/-!
Verification development for the invoice-agent repository.

The Python sources are shallowly embedded below:
* `extract_transaction_details` (src/tools.py) — the extraction adapter:
  fence stripping, JSON parsing (the `json.loads` library call is a
  parameter, modelled as a deterministic function of the input string),
  field coercions and the empty-company check, with Python's exception
  discipline made explicit (`PyOutcome`).
* `setup_database`, `create_invoice`, `get_ledger_data` (src/tools.py) —
  the SQLite ledger, modelled as an explicit state (`DB`).
* the LangGraph agent loop of src/main.py — modelled as a policy-driven
  tool-call sequence.
-/

namespace InvoiceAgent

/-- JSON values as produced by `json.loads`.  Python distinguishes the
integers and floats that `json.loads` returns, so the model does too
(`jint` vs `jnum`); floats are modelled as exact rationals. -/
inductive Json where
  | jnull
  | jbool (b : Bool)
  | jint (n : Int)
  | jnum (q : ℚ)
  | jstr (s : String)
  | jarr (xs : List Json)
  | jobj (fields : List (String × Json))

/-- Python exceptions that escape a function uncaught. -/
inductive PyErr where
  | attributeError (msg : String)
deriving DecidableEq, Repr

/-- Outcome of running a Python function: a returned value or an uncaught
exception. -/
inductive PyOutcome (α : Type) where
  | ok (a : α) : PyOutcome α
  | raised (e : PyErr) : PyOutcome α
deriving DecidableEq, Repr

/-- The backtick character (used by the fenced-code-block markers). -/
def tick : Char := Char.ofNat 96

/-- Boolean prefix test on character lists, modelling Python
`str.startswith`. -/
def chPre : List Char → List Char → Bool
  | [], _ => true
  | _ :: _, [] => false
  | a :: as, b :: bs => a = b && chPre as bs

/-- Python `str.strip()`: drop leading and trailing whitespace. -/
def pyStripChars (l : List Char) : List Char :=
  ((l.dropWhile Char.isWhitespace).reverse.dropWhile Char.isWhitespace).reverse

/-- String wrapper for `pyStripChars`. -/
def pyStrip (s : String) : String :=
  ⟨pyStripChars s.data⟩

/-- Split at the first newline, modelling Python `s.split("\n", 1)`:
`none` when the string has no newline, otherwise the parts before and
after the first newline. -/
def splitAtFirstNL : List Char → Option (List Char × List Char)
  | [] => none
  | c :: cs =>
    if c = '\n' then some ([], cs)
    else
      match splitAtFirstNL cs with
      | none => none
      | some (pre, post) => some (c :: pre, post)

/-- Part before the last newline, modelling Python
`s.rsplit("\n", 1)[0] if "\n" in s else s`. -/
def beforeLastNL (l : List Char) : List Char :=
  match splitAtFirstNL l.reverse with
  | none => l
  | some (_, revPre) => revPre.reverse

/-- Fence stripping from src/tools.py lines 88-91: if the reply starts
with three backticks, drop the first line (`split("\n", 1)`, taking the
empty string when there is no newline) and then drop the last line
(`rsplit("\n", 1)[0]` when a newline remains). -/
def stripFenceChars (l : List Char) : List Char :=
  if chPre [tick, tick, tick] l then
    let afterFirst :=
      match splitAtFirstNL l with
      | none => []
      | some (_, post) => post
    beforeLastNL afterFirst
  else l

/-- The normalised reply text handed to `json.loads`: the model reply is
stripped (`.strip()`) and then fence markers are removed. -/
def normalizeReply (reply : String) : String :=
  ⟨stripFenceChars (pyStripChars reply.data)⟩

/-- Python `str(value)` on a JSON value.  String values are returned
verbatim (the only case the claims depend on); the reprs of the other
shapes are modelled approximately (no claim reads them). -/
def pyStr : Json → String
  | .jnull => "None"
  | .jbool true => "True"
  | .jbool false => "False"
  | .jint n => toString n
  | .jnum q => toString q.num ++ "/" ++ toString q.den
  | .jstr s => s
  | .jarr _ => "[...]"
  | .jobj _ => "\x7b...\x7d"

/-- Fold decimal digits to a natural number. -/
def digitsToNat (l : List Char) : Nat :=
  l.foldl (fun n c => 10 * n + (c.toNat - 48)) 0

/-- All characters are decimal digits. -/
def allDigits (l : List Char) : Bool :=
  l.all (fun c => c.isDigit)

/-- Python `float(s)` on a string, modelled for the core literal forms
(optional sign, digits with at most one point); other forms fail with
`ValueError` as in Python.  Exponents and infinities are not modelled —
no claim depends on them. -/
def pyFloatOfChars (l : List Char) : Option ℚ :=
  let t := pyStripChars l
  let signAndBody : ℚ × List Char :=
    match t with
    | '-' :: rest => (-1, rest)
    | '+' :: rest => (1, rest)
    | _ => (1, t)
  let sign := signAndBody.1
  let body := signAndBody.2
  match body.splitOn '.' with
  | [ip] =>
    if ip ≠ [] ∧ allDigits ip then some (sign * digitsToNat ip) else none
  | [ip, fp] =>
    if (ip ≠ [] ∨ fp ≠ []) ∧ allDigits ip ∧ allDigits fp then
      some (sign * ((digitsToNat ip : ℚ) + (digitsToNat fp : ℚ) / 10 ^ fp.length))
    else none
  | _ => none

/-- Python `int(s)` on a string: optional sign and nonempty digits only. -/
def pyIntOfChars (l : List Char) : Option Int :=
  let t := pyStripChars l
  let signAndBody : Int × List Char :=
    match t with
    | '-' :: rest => (-1, rest)
    | '+' :: rest => (1, rest)
    | _ => (1, t)
  let sign := signAndBody.1
  let body := signAndBody.2
  if body ≠ [] ∧ allDigits body then some (sign * digitsToNat body) else none

/-- Python `float(x)` on a JSON value.  Failures carry the exception
message; `ValueError` and `TypeError` are not distinguished because the
source catches them with one handler. -/
def pyFloat : Json → Except String ℚ
  | .jnull => .error "float() argument must not be None"
  | .jbool b => .ok (if b then 1 else 0)
  | .jint n => .ok (n : ℚ)
  | .jnum q => .ok q
  | .jstr s =>
    match pyFloatOfChars s.data with
    | some q => .ok q
    | none => .error ("could not convert string to float: " ++ s)
  | .jarr _ => .error "float() argument must be a string or a real number"
  | .jobj _ => .error "float() argument must be a string or a real number"

/-- Python `int(x)` on a JSON value; `int` of a float truncates toward
zero, which is what `Int.div` does. -/
def pyInt : Json → Except String Int
  | .jnull => .error "int() argument must not be None"
  | .jbool b => .ok (if b then 1 else 0)
  | .jint n => .ok n
  | .jnum q => .ok (Int.tdiv q.num (q.den : Int))
  | .jstr s =>
    match pyIntOfChars s.data with
    | some n => .ok n
    | none => .error ("invalid literal for int() with base 10: " ++ s)
  | .jarr _ => .error "int() argument must be a string or a number"
  | .jobj _ => .error "int() argument must be a string or a number"

/-- Python `dict.get(k, dflt)` on the field list produced by
`json.loads` (on duplicate keys Python keeps the last, hence the
reversed scan). -/
def objGet (fields : List (String × Json)) (k : String) (dflt : Json) : Json :=
  match fields.reverse.find? (fun p => p.1 == k) with
  | some p => p.2
  | none => dflt

/-- The result dictionary returned by `extract_transaction_details`. -/
structure ExtractResult where
  company_name : String
  amount_paid : ℚ
  product_name : String
  num_units : Int
  success : Bool
  function_call_success : Bool
  error_message : Option String
deriving DecidableEq, Repr

/-- The failure dictionary from src/tools.py lines 116-135: defaults in
every data field, `success = False`, and the given error message. -/
def extractFailure (msg : String) : ExtractResult :=
  { company_name := ""
    amount_paid := 0
    product_name := ""
    num_units := 0
    success := false
    function_call_success := false
    error_message := some msg }

/-- Embedding of `extract_transaction_details` (src/tools.py lines
83-135).  `parse` stands for the `json.loads` library call (`.error`
carries the `JSONDecodeError` text) and `reply` is the text of the model
reply.  Mirrors the source: strip, fence handling, `json.loads`, the
`data.get`/`str`/`float`/`int` coercions, then the empty-company check.
`data.get` on a non-dict raises `AttributeError`, which no handler
catches, hence the `raised` branch. -/
def extract_transaction_details (parse : String → Except String Json)
    (reply : String) : PyOutcome ExtractResult :=
  let result := normalizeReply reply
  match parse result with
  | .error e => .ok (extractFailure ("Invalid JSON from model: " ++ e))
  | .ok data =>
    match data with
    | .jobj fields =>
      let company := pyStrip (pyStr (objGet fields "company_name" (.jstr "")))
      let product := pyStrip (pyStr (objGet fields "product_name" (.jstr "")))
      let amountRaw := objGet fields "amount_paid" (.jnum 0)
      let unitsRaw := objGet fields "num_units" (.jint 0)
      match pyFloat amountRaw with
      | .error e => .ok (extractFailure ("Data validation error: " ++ e))
      | .ok amount =>
        match pyInt unitsRaw with
        | .error e => .ok (extractFailure ("Data validation error: " ++ e))
        | .ok units =>
          if company = "" then
            .ok (extractFailure "Data validation error: company_name is missing")
          else
            .ok { company_name := company
                  amount_paid := amount
                  product_name := product
                  num_units := units
                  success := true
                  function_call_success := true
                  error_message := none }
    | _ => .raised (.attributeError "object has no attribute get")

/-- One row of the `Ledger` table (src/tools.py lines 39-48).
`timestamp` models the `DATETIME DEFAULT CURRENT_TIMESTAMP` column as the
clock value supplied at insert time. -/
structure LedgerRow where
  id : Nat
  company_name : String
  amount_paid : ℚ
  product_name : String
  num_units : Int
  timestamp : Nat
deriving DecidableEq, Repr

/-- The SQLite database state: whether the `Ledger` table exists, its
rows in insertion order, and the next rowid SQLite would assign (equal
to max rowid + 1 on every state this system can reach). -/
structure DB where
  hasLedger : Bool
  rows : List LedgerRow
  nextId : Nat
deriving DecidableEq, Repr

/-- A database file before any setup: no `Ledger` table. -/
def emptyDB : DB := ⟨false, [], 1⟩

/-- Embedding of `setup_database` (src/tools.py lines 23-50):
`CREATE TABLE IF NOT EXISTS` creates the empty table when absent and
leaves an existing table (and its rows) untouched. -/
def setup_database (db : DB) : DB :=
  if db.hasLedger then db else { hasLedger := true, rows := [], nextId := 1 }

/-- The result dictionary returned by `create_invoice`. -/
structure InvoiceResult where
  invoice_id : Option Nat
  success : Bool
  invoice_success : Bool
  error_message : Option String
  timestamp : Option Nat
deriving DecidableEq, Repr

/-- Embedding of `create_invoice` (src/tools.py lines 140-191): insert a
row with store-assigned id and timestamp and report the id and timestamp
back; a storage fault (here: missing table) yields the failure
dictionary and leaves the database unchanged.  The arguments arrive
already typed, so the source's `float(amount_paid)` and
`int(num_units)` are identities. -/
def create_invoice (db : DB) (now : Nat) (company_name : String)
    (amount_paid : ℚ) (product_name : String) (num_units : Int) :
    InvoiceResult × DB :=
  if db.hasLedger then
    let row : LedgerRow :=
      ⟨db.nextId, company_name, amount_paid, product_name, num_units, now⟩
    (⟨some db.nextId, true, true, none, some now⟩,
      { db with rows := db.rows ++ [row], nextId := db.nextId + 1 })
  else
    (⟨none, false, false, some "Database error: no such table: Ledger", none⟩, db)

/-- The `ORDER BY timestamp DESC` comparison of the ledger query. -/
def tsDesc (a b : LedgerRow) : Prop := b.timestamp ≤ a.timestamp

instance : DecidableRel tsDesc := fun a b =>
  inferInstanceAs (Decidable (b.timestamp ≤ a.timestamp))

/-- Row list produced by `SELECT * FROM Ledger ORDER BY timestamp DESC`
(src/tools.py line 215).  SQLite leaves the order of equal keys
unspecified; the model uses a stable sort, which keeps equal-timestamp
rows in table (insertion) order, matching SQLite's scan-order behaviour
on this single-table query. -/
def ledgerQuery (db : DB) : List LedgerRow :=
  List.insertionSort tsDesc db.rows

/-- Replicate a character, modelling `"-" * 75` and format padding. -/
def repChar (c : Char) (n : Nat) : String :=
  ⟨List.replicate n c⟩

/-- Python right-justification in a width-`w` field (the default for
numbers and explicit in the source's format specs): pad with spaces when
shorter, leave untouched when longer. -/
def pyRjust (s : String) (w : Nat) : String :=
  repChar ' ' (w - s.length) ++ s

/-- Python left-justification in a width-`w` field: pad with spaces when
shorter, leave untouched when longer.  No truncation. -/
def pyLjust (s : String) (w : Nat) : String :=
  s ++ repChar ' ' (w - s.length)

/-- Insert thousands separators into a digit string, as the `,` format
option does. -/
def groupDigits (s : String) : String :=
  let rec go : List Char → List Char
    | a :: b :: c :: d :: rest => a :: b :: c :: ',' :: go (d :: rest)
    | l => l
  ⟨(go s.data.reverse).reverse⟩

/-- Two-digit zero-padded rendering of a number below 100 (the cents
part of the `.2f` format). -/
def pad2 (n : Nat) : String :=
  ⟨[Nat.digitChar (n / 10 % 10), Nat.digitChar (n % 10)]⟩

/-- Round a nonnegative rational to the nearest integer, ties to even,
as `%.2f` rounding behaves on the scale of cents. -/
def roundHalfEven (x : ℚ) : Nat :=
  let n := x.floor
  let frac := x - (n : ℚ)
  (if frac < 1/2 then n
   else if 1/2 < frac then n + 1
   else if n % 2 = 0 then n else n + 1).toNat

/-- Python `format(q, ",.2f")`: sign, grouped integer part, point, two
decimal digits.  The source formats binary doubles; the model rounds the
exact rational half-to-even. -/
def fmtFixed2 (q : ℚ) : String :=
  let cents := roundHalfEven (|q| * 100)
  (if q < 0 then "-" else "") ++
    groupDigits (toString (cents / 100)) ++ "." ++ pad2 (cents % 100)

/-- One formatted table row (src/tools.py line 223): id right-adjusted
in 2, company left-adjusted in 18, dollar sign then amount
right-adjusted in 9 with thousands separators and two decimals, product
left-adjusted in 8, units right-adjusted in 5, timestamp verbatim. -/
def formatRow (r : LedgerRow) : String :=
  pyRjust (toString r.id) 2 ++ " | " ++
    pyLjust r.company_name 18 ++ " | $" ++
    pyRjust (fmtFixed2 r.amount_paid) 9 ++ " | " ++
    pyLjust r.product_name 8 ++ " | " ++
    pyRjust (toString r.num_units) 5 ++ " | " ++
    toString r.timestamp ++ "\n"

/-- The table header line of src/tools.py line 220. -/
def headerLine : String :=
  "ID | Company Name        | Amount Paid | Product   | Units | Timestamp\n"

/-- The separator line: 75 dashes and a newline. -/
def dashLine : String := repChar '-' 75 ++ "\n"

/-- Embedding of `get_ledger_data` (src/tools.py lines 196-233): query
the rows newest-first and build the banner, header, separator, row
lines, and closing separator; a storage fault yields the error string. -/
def get_ledger_data (db : DB) : String :=
  if db.hasLedger then
    "\n=== Current Ledger ===\n" ++ headerLine ++ dashLine ++
      String.join ((ledgerQuery db).map formatRow) ++ dashLine
  else "Error displaying ledger: no such table: Ledger"

/-- Workflow stages named by the specified result envelope. -/
inductive Stage where
  | extraction
  | validation
  | persistence
deriving DecidableEq, Repr

/-- Terminal workflow outcome: the persisted entry on success, the
failing stage and message otherwise. -/
inductive WorkflowResult where
  | done (entry : LedgerRow)
  | failed (stage : Stage) (msg : String)
deriving DecidableEq, Repr

/-- The extraction-then-persist workflow that src/main.py's system
prompt prescribes (extract_transaction_details, then create_invoice when
extraction succeeded), over one model reply.  An uncaught Python
exception in a tool propagates (`raised`), exactly as a ToolNode call
would re-raise it. -/
def runWorkflow (parse : String → Except String Json) (reply : String)
    (db : DB) (now : Nat) : PyOutcome (WorkflowResult × DB) :=
  match extract_transaction_details parse reply with
  | .raised e => .raised e
  | .ok r =>
    if r.success then
      let out := create_invoice db now r.company_name r.amount_paid
        r.product_name r.num_units
      match out.1.invoice_id, out.1.timestamp with
      | some i, some t =>
        .ok (.done ⟨i, r.company_name, r.amount_paid, r.product_name,
          r.num_units, t⟩, out.2)
      | _, _ =>
        .ok (.failed .persistence (out.1.error_message.getD ""), out.2)
    else
      .ok (.failed .extraction (r.error_message.getD ""), db)

/-- Record of transaction data used when driving the workflow with many
inserts: the four fields plus the clock value at insert time. -/
structure InsertSpec where
  company_name : String
  amount_paid : ℚ
  product_name : String
  num_units : Int
  time : Nat
deriving DecidableEq, Repr

/-- Run a sequence of `create_invoice` calls against the store. -/
def insertAll (db : DB) : List InsertSpec → DB
  | [] => db
  | x :: xs =>
    insertAll (create_invoice db x.time x.company_name x.amount_paid
      x.product_name x.num_units).2 xs

/-- The three tools bound to the agent graph in src/main.py. -/
inductive ToolName where
  | extractTool
  | createTool
  | ledgerTool
deriving DecidableEq, Repr

/-- Tool calls performed during one graph invocation (src/main.py lines
115-129).  The graph is START → assistant, assistant → tools whenever
the assistant message carries tool calls (tools_condition), tools →
assistant; a policy lists the successive assistant outputs, each the
tool calls of that assistant message.  The invocation ends at the first
assistant message without tool calls; ToolNode runs each requested tool
once. -/
def toolCallsInRun (t : ToolName) : List (List ToolName) → Nat
  | [] => 0
  | calls :: rest =>
    if calls = [] then 0 else calls.count t + toolCallsInRun t rest

/-! Concrete fixtures: deterministic stand-ins for `json.loads` on the
specific reply texts used by the closed theorems below.  Each maps one
reply text to its parse, and fails on everything else the way
`json.loads` fails on a non-JSON string. -/

/-- Parse fixture: the reply `null` is valid JSON whose value is the
non-dict `None`. -/
def parseNullFix : String → Except String Json := fun s =>
  if s = "null" then .ok .jnull else .error "Expecting value: line 1 column 1 (char 0)"

/-- Parse fixture: the reply `[1, 2]` is valid JSON whose value is a
non-dict list. -/
def parseArrFix : String → Except String Json := fun s =>
  if s = "[1, 2]" then .ok (.jarr [.jint 1, .jint 2])
  else .error "Expecting value: line 1 column 1 (char 0)"

/-- Reply text of a record that satisfies every validation rule except
`amount_paid > 0`. -/
def zeroAmountReply : String :=
  "\x7b\"company_name\": \"Acme\", \"amount_paid\": 0, \"product_name\": \"GPUs\", \"num_units\": 2\x7d"

/-- Parse fixture for `zeroAmountReply`. -/
def parseZeroAmountFix : String → Except String Json := fun s =>
  if s = zeroAmountReply then
    .ok (.jobj [("company_name", .jstr "Acme"), ("amount_paid", .jint 0),
      ("product_name", .jstr "GPUs"), ("num_units", .jint 2)])
  else .error "Expecting value: line 1 column 1 (char 0)"

/-- Reply text of a record whose company name is whitespace only. -/
def blankCompanyReply : String :=
  "\x7b\"company_name\": \"  \", \"amount_paid\": 5.0, \"product_name\": \"GPUs\", \"num_units\": 1\x7d"

/-- Parse fixture for `blankCompanyReply`. -/
def parseBlankCompanyFix : String → Except String Json := fun s =>
  if s = blankCompanyReply then
    .ok (.jobj [("company_name", .jstr "  "), ("amount_paid", .jnum 5),
      ("product_name", .jstr "GPUs"), ("num_units", .jint 1)])
  else .error "Expecting value: line 1 column 1 (char 0)"

/-- Reply text of a fully valid record. -/
def validReply : String :=
  "\x7b\"company_name\": \"Amazon\", \"amount_paid\": 40000.0, \"product_name\": \"GPUs\", \"num_units\": 5\x7d"

/-- Parse fixture for `validReply`. -/
def parseValidFix : String → Except String Json := fun s =>
  if s = validReply then
    .ok (.jobj [("company_name", .jstr "Amazon"), ("amount_paid", .jnum 40000),
      ("product_name", .jstr "GPUs"), ("num_units", .jint 5)])
  else .error "Expecting value: line 1 column 1 (char 0)"

/-- Parse fixture for the fence-stripping theorem: one small JSON
object. -/
def parseObjFix : String → Except String Json := fun s =>
  if s = "\x7b\"a\": 1\x7d" then .ok (.jobj [("a", .jint 1)])
  else .error "Expecting value: line 1 column 1 (char 0)"

/-- The database produced by two same-timestamp inserts after setup. -/
def dbTie : DB :=
  insertAll (setup_database emptyDB)
    [⟨"Acme", 1, "x", 1, 5⟩, ⟨"Beta", 2, "y", 1, 5⟩]

/-- The concrete characters of the fenced-block first line marker plus
language tag and its newline. -/
def fencePre : List Char := [tick, tick, tick, 'j', 's', 'o', 'n', '\n']

/-- The concrete characters of the closing fence line with its leading
newline. -/
def fenceSuf : List Char := ['\n', tick, tick, tick]

/-- Key relation combining the two clauses of the amended ordering
claim for the ledger read: timestamps weakly decrease, and rows with
equal timestamps keep ascending insertion ids. -/
def rKey (a b : LedgerRow) : Prop :=
  b.timestamp ≤ a.timestamp ∧ (a.timestamp = b.timestamp → a.id < b.id)

/-- Reachable-store invariant: the table exists, every row id is below
the next id, and row ids ascend in insertion order. -/
def GoodDB (db : DB) : Prop :=
  db.hasLedger = true ∧ (∀ r ∈ db.rows, r.id < db.nextId) ∧
    db.rows.Pairwise (fun a b => a.id < b.id)

/-! Theorems. -/

/-- When the extraction adapter returns one of its failure dictionaries,
the workflow stops at the extraction stage with the same message and the
database is untouched. -/
theorem runWorkflow_extract_fail (parse : String → Except String Json)
    (reply : String) (db : DB) (now : Nat) (msg : String)
    (h : extract_transaction_details parse reply = .ok (extractFailure msg)) :
    runWorkflow parse reply db now = .ok (.failed .extraction msg, db) := by
  unfold runWorkflow
  rw [h]
  simp [extractFailure]

/-- C9: store setup is idempotent — running `setup_database` twice
yields the same state as running it once, on every database state. -/
theorem c9_setup_idempotent (db : DB) :
    setup_database (setup_database db) = setup_database db := by
  cases h : db.hasLedger <;> simp [setup_database, h]

/-- C6: a stage error escapes the extraction adapter as a raw fault.  On
the model reply `null` — valid JSON whose value is not a dict —
`data.get` raises an `AttributeError` that no handler catches, and the
raw exception crosses into the workflow instead of being converted into
a classified failure. -/
theorem c6_raw_fault_escapes :
    extract_transaction_details parseNullFix "null" =
      .raised (.attributeError "object has no attribute get") ∧
    runWorkflow parseNullFix "null" (setup_database emptyDB) 7 =
      .raised (.attributeError "object has no attribute get") := by
  constructor <;> rfl

/-- C10 counterexample: the extraction adapter is not total — on the
reply `[1, 2]`, valid JSON whose value is a list, it raises an uncaught
`AttributeError` instead of returning a result dictionary. -/
theorem c10_counterexample :
    extract_transaction_details parseArrFix "[1, 2]" =
      .raised (.attributeError "object has no attribute get") := by
  rfl

/-- C10 (amended): for every reply whose text fails to parse or parses
to a JSON object, the adapter returns a result dictionary, and every
failure dictionary carries the four defaults together with a non-null
error message. -/
theorem c10_total_on_objects (parse : String → Except String Json)
    (reply : String)
    (h : (∃ e, parse (normalizeReply reply) = .error e) ∨
      (∃ fs, parse (normalizeReply reply) = .ok (.jobj fs))) :
    ∃ d, extract_transaction_details parse reply = .ok d ∧
      (d.success = false → d.company_name = "" ∧ d.amount_paid = 0 ∧
        d.product_name = "" ∧ d.num_units = 0 ∧ d.error_message ≠ none) := by
  rcases h with ⟨e, he⟩ | ⟨fs, hfs⟩
  · refine ⟨extractFailure ("Invalid JSON from model: " ++ e), ?_, ?_⟩
    · simp only [extract_transaction_details, he]
    · intro _
      simp [extractFailure]
  · cases hA : pyFloat (objGet fs "amount_paid" (.jnum 0)) with
    | error e =>
      refine ⟨extractFailure ("Data validation error: " ++ e), ?_, ?_⟩
      · simp only [extract_transaction_details, hfs, hA]
      · intro _
        simp [extractFailure]
    | ok amount =>
      cases hU : pyInt (objGet fs "num_units" (.jint 0)) with
      | error e =>
        refine ⟨extractFailure ("Data validation error: " ++ e), ?_, ?_⟩
        · simp only [extract_transaction_details, hfs, hA, hU]
        · intro _
          simp [extractFailure]
      | ok units =>
        by_cases hc : pyStrip (pyStr (objGet fs "company_name" (.jstr ""))) = ""
        · refine ⟨extractFailure "Data validation error: company_name is missing", ?_, ?_⟩
          · simp only [extract_transaction_details, hfs, hA, hU]
            rw [if_pos hc]
          · intro _
            simp [extractFailure]
        · refine ⟨{ company_name := pyStrip (pyStr (objGet fs "company_name" (.jstr "")))
                    amount_paid := amount
                    product_name := pyStrip (pyStr (objGet fs "product_name" (.jstr "")))
                    num_units := units
                    success := true
                    function_call_success := true
                    error_message := none }, ?_, ?_⟩
          · simp only [extract_transaction_details, hfs, hA, hU]
            rw [if_neg hc]
          · intro hfalse
            simp at hfalse

/-- C10 witness: the amended theorem applied to a parse failure. -/
theorem c10_witness :
    ∃ d, extract_transaction_details (fun _ => .error "boom") "" = .ok d ∧
      (d.success = false → d.company_name = "" ∧ d.amount_paid = 0 ∧
        d.product_name = "" ∧ d.num_units = 0 ∧ d.error_message ≠ none) :=
  c10_total_on_objects (fun _ => .error "boom") "" (Or.inl ⟨"boom", rfl⟩)

/-- The assistant policy that requests tool `t` once per turn for `n`
turns performs exactly `n` calls to `t` in one invocation. -/
theorem toolCalls_replicate (t : ToolName) (n : Nat) :
    toolCallsInRun t (List.replicate n [t]) = n := by
  induction n with
  | zero => rfl
  | succ k ih =>
    rw [List.replicate_succ]
    unfold toolCallsInRun
    rw [if_neg (by simp), ih]
    simp [List.count_cons]
    omega

/-- C8 counterexample: the agent graph of src/main.py cycles assistant →
tools → assistant, so an invocation in which the assistant requests the
extraction tool twice performs two extraction calls — the orchestrator
does not bound any step to one call. -/
theorem c8_counterexample :
    ¬ (toolCallsInRun .extractTool [[.extractTool], [.extractTool], []] ≤ 1) := by
  decide

/-- C8 (amended): the graph imposes no per-invocation bound on tool
calls — for every n there is an assistant policy whose single invocation
performs exactly n extraction calls, and likewise n insert calls. -/
theorem c8_unbounded_calls (n : Nat) :
    (∃ p, toolCallsInRun .extractTool p = n) ∧
    (∃ p, toolCallsInRun .createTool p = n) := by
  constructor
  · exact ⟨List.replicate n [.extractTool], toolCalls_replicate .extractTool n⟩
  · exact ⟨List.replicate n [.createTool], toolCalls_replicate .createTool n⟩

/-- C5: when the normalised reply is not parseable JSON, the adapter
returns (rather than raises) the invalid-format failure dictionary, and
the workflow terminates failed at the extraction stage with the database
unchanged. -/
theorem c5_invalid_format (parse : String → Except String Json)
    (reply : String) (db : DB) (now : Nat) (e : String)
    (h : parse (normalizeReply reply) = .error e) :
    extract_transaction_details parse reply =
      .ok (extractFailure ("Invalid JSON from model: " ++ e)) ∧
    runWorkflow parse reply db now =
      .ok (.failed .extraction ("Invalid JSON from model: " ++ e), db) := by
  have h1 : extract_transaction_details parse reply =
      .ok (extractFailure ("Invalid JSON from model: " ++ e)) := by
    simp only [extract_transaction_details, h]
  exact ⟨h1, runWorkflow_extract_fail parse reply db now _ h1⟩

/-- C5 witness: the theorem applied to the reply `\x7bnot json`. -/
theorem c5_witness :
    extract_transaction_details (fun _ => .error "Expecting value") "\x7bnot json" =
      .ok (extractFailure ("Invalid JSON from model: " ++ "Expecting value")) ∧
    runWorkflow (fun _ => .error "Expecting value") "\x7bnot json"
        (setup_database emptyDB) 3 =
      .ok (.failed .extraction ("Invalid JSON from model: " ++ "Expecting value"),
        setup_database emptyDB) :=
  c5_invalid_format (fun _ => .error "Expecting value") "\x7bnot json"
    (setup_database emptyDB) 3 "Expecting value" rfl

/-- C1 counterexample: a record that satisfies the company and units
rules but violates `amount_paid > 0` is not rejected — the workflow
reaches the success state and a row is inserted (ledger row count goes
from 0 to 1), because neither `extract_transaction_details` nor
`create_invoice` checks `amount_paid` or `num_units`. -/
theorem c1_counterexample :
    runWorkflow parseZeroAmountFix zeroAmountReply (setup_database emptyDB) 7 =
      .ok (.done ⟨1, "Acme", 0, "GPUs", 2, 7⟩,
        ⟨true, [⟨1, "Acme", 0, "GPUs", 2, 7⟩], 2⟩) ∧
    (setup_database emptyDB).rows.length = 0 ∧
    ¬ ((0 : ℚ) > 0) ∧ ("Acme" : String) ≠ "" ∧ (1 : Int) ≤ 2 := by
  exact ⟨by decide, by decide, by decide, by decide, by decide⟩

/-- C1 (amended): only the company rule is enforced.  Whenever the
parsed record's company name is empty after trimming, the workflow
terminates failed (the adapter classifies it as a data-validation
extraction failure) and the database is unchanged; the `amount_paid`
and `num_units` rules are checked nowhere, so records violating only
those are inserted. -/
theorem c1_empty_company (parse : String → Except String Json)
    (reply : String) (db : DB) (now : Nat) (fs : List (String × Json))
    (h1 : parse (normalizeReply reply) = .ok (.jobj fs))
    (h2 : pyStrip (pyStr (objGet fs "company_name" (.jstr ""))) = "") :
    ∃ msg, runWorkflow parse reply db now = .ok (.failed .extraction msg, db) := by
  cases hA : pyFloat (objGet fs "amount_paid" (.jnum 0)) with
  | error e =>
    exact ⟨"Data validation error: " ++ e, runWorkflow_extract_fail _ _ _ _ _
      (by simp only [extract_transaction_details, h1, hA])⟩
  | ok amount =>
    cases hU : pyInt (objGet fs "num_units" (.jint 0)) with
    | error e =>
      exact ⟨"Data validation error: " ++ e, runWorkflow_extract_fail _ _ _ _ _
        (by simp only [extract_transaction_details, h1, hA, hU])⟩
    | ok units =>
      exact ⟨"Data validation error: company_name is missing",
        runWorkflow_extract_fail _ _ _ _ _ (by
          simp only [extract_transaction_details, h1, hA, hU]
          rw [if_pos h2])⟩

/-- C1 witness: the amended theorem applied to a whitespace-only company
name. -/
theorem c1_witness :
    ∃ msg, runWorkflow parseBlankCompanyFix blankCompanyReply
      (setup_database emptyDB) 2 = .ok (.failed .extraction msg, setup_database emptyDB) :=
  c1_empty_company parseBlankCompanyFix blankCompanyReply (setup_database emptyDB) 2
    [("company_name", .jstr "  "), ("amount_paid", .jnum 5),
      ("product_name", .jstr "GPUs"), ("num_units", .jint 1)]
    rfl rfl

/-- C2: for every parsed record with non-empty (trimmed) company name,
amount strictly positive, and integer units at least 1, the workflow
reaches the success terminal state; the persisted row carries exactly
the record's company, amount, product and units, and it is returned by
the full-ledger read (round-trip through the store). -/
theorem c2_round_trip (parse : String → Except String Json)
    (reply : String) (db : DB) (now : Nat) (fs : List (String × Json))
    (c p : String) (a : ℚ) (k : Int)
    (h1 : parse (normalizeReply reply) = .ok (.jobj fs))
    (hc : objGet fs "company_name" (.jstr "") = .jstr c)
    (hcne : pyStrip c ≠ "")
    (hp : objGet fs "product_name" (.jstr "") = .jstr p)
    (ha : objGet fs "amount_paid" (.jnum 0) = .jnum a)
    (_ha0 : 0 < a)
    (hk : objGet fs "num_units" (.jint 0) = .jint k)
    (_hk1 : 1 ≤ k)
    (hdb : db.hasLedger = true) :
    runWorkflow parse reply db now =
      .ok (.done ⟨db.nextId, pyStrip c, a, pyStrip p, k, now⟩,
        { db with rows := db.rows ++ [⟨db.nextId, pyStrip c, a, pyStrip p, k, now⟩],
                  nextId := db.nextId + 1 }) ∧
    (⟨db.nextId, pyStrip c, a, pyStrip p, k, now⟩ : LedgerRow) ∈
      ledgerQuery { db with
        rows := db.rows ++ [⟨db.nextId, pyStrip c, a, pyStrip p, k, now⟩],
        nextId := db.nextId + 1 } := by
  have hex : extract_transaction_details parse reply =
      .ok ⟨pyStrip c, a, pyStrip p, k, true, true, none⟩ := by
    simp only [extract_transaction_details, h1, hc, hp, ha, hk, pyStr, pyFloat, pyInt]
    rw [if_neg hcne]
  constructor
  · unfold runWorkflow
    rw [hex]
    simp [create_invoice, hdb]
  · unfold ledgerQuery
    rw [(List.perm_insertionSort tsDesc _).mem_iff]
    simp

/-- C2 witness: the round-trip theorem applied to the record
(Amazon, 40000.0, GPUs, 5). -/
theorem c2_witness :
    runWorkflow parseValidFix validReply (setup_database emptyDB) 9 =
      .ok (.done ⟨(setup_database emptyDB).nextId, pyStrip "Amazon", 40000, pyStrip "GPUs", 5, 9⟩,
        { setup_database emptyDB with
            rows := (setup_database emptyDB).rows ++
              [⟨(setup_database emptyDB).nextId, pyStrip "Amazon", 40000, pyStrip "GPUs", 5, 9⟩],
            nextId := (setup_database emptyDB).nextId + 1 }) ∧
    (⟨(setup_database emptyDB).nextId, pyStrip "Amazon", 40000, pyStrip "GPUs", 5, 9⟩ : LedgerRow) ∈
      ledgerQuery { setup_database emptyDB with
        rows := (setup_database emptyDB).rows ++
          [⟨(setup_database emptyDB).nextId, pyStrip "Amazon", 40000, pyStrip "GPUs", 5, 9⟩],
        nextId := (setup_database emptyDB).nextId + 1 } :=
  c2_round_trip parseValidFix validReply (setup_database emptyDB) 9
    [("company_name", .jstr "Amazon"), ("amount_paid", .jnum 40000),
      ("product_name", .jstr "GPUs"), ("num_units", .jint 5)]
    "Amazon" "GPUs" 40000 5 rfl rfl (by decide) rfl rfl (by norm_num) rfl
    (by norm_num) rfl

/-- Python `strip` leaves a list alone when its first and last
characters are not whitespace. -/
theorem pyStrip_fix (c d : Char) (mid : List Char)
    (hc : Char.isWhitespace c = false) (hd : Char.isWhitespace d = false) :
    pyStripChars (c :: (mid ++ [d])) = c :: (mid ++ [d]) := by
  simp [pyStripChars, List.dropWhile_cons, hc, hd, List.reverse_append]

/-- A fenced reply is its own strip: it starts and ends with a
backtick. -/
theorem pyStrip_fenced (bs : List Char) :
    pyStripChars (fencePre ++ (bs ++ fenceSuf)) = fencePre ++ (bs ++ fenceSuf) := by
  have hshape : fencePre ++ (bs ++ fenceSuf)
      = tick :: (([tick, tick, 'j', 's', 'o', 'n', '\n'] ++ (bs ++ ['\n', tick, tick])) ++ [tick]) := by
    simp [fencePre, fenceSuf]
  rw [hshape]
  exact pyStrip_fix _ _ _ (by decide) (by decide)

/-- Splitting a fenced reply at its first newline removes exactly the
opening marker line. -/
theorem splitFirst_fencePre (X : List Char) :
    splitAtFirstNL (fencePre ++ X) = some ([tick, tick, tick, 'j', 's', 'o', 'n'], X) := rfl

/-- Cutting a fenced remainder at its last newline removes exactly the
closing fence line. -/
theorem beforeLast_fenceSuf (bs : List Char) :
    beforeLastNL (bs ++ fenceSuf) = bs := by
  unfold beforeLastNL
  have hrev : (bs ++ fenceSuf).reverse = [tick, tick, tick, '\n'] ++ bs.reverse := by
    simp [fenceSuf]
  rw [hrev]
  have hsplit : splitAtFirstNL ([tick, tick, tick, '\n'] ++ bs.reverse)
      = some ([tick, tick, tick], bs.reverse) := rfl
  rw [hsplit]
  simp

/-- Fence stripping recovers the body of a fenced reply exactly. -/
theorem stripFence_fenced (bs : List Char) :
    stripFenceChars (fencePre ++ (bs ++ fenceSuf)) = bs := by
  have hpre : chPre [tick, tick, tick] (fencePre ++ (bs ++ fenceSuf)) = true := rfl
  simp only [stripFenceChars, hpre, if_true, splitFirst_fencePre]
  exact beforeLast_fenceSuf bs

/-- Normalising the fenced wrapping of a body yields the body. -/
theorem normalize_fenced (body : String) :
    normalizeReply ("```json\n" ++ body ++ "\n```") = body := by
  have hdata : ("```json\n" ++ body ++ "\n```").data = fencePre ++ (body.data ++ fenceSuf) := by
    rw [String.data_append, String.data_append,
      show ("```json\n").data = fencePre from rfl,
      show ("\n```").data = fenceSuf from rfl, List.append_assoc]
  unfold normalizeReply
  rw [hdata, pyStrip_fenced, stripFence_fenced]

/-- Normalising an already-stripped reply that does not start with a
fence marker is the identity. -/
theorem normalize_unfenced (body : String)
    (h1 : pyStripChars body.data = body.data)
    (h2 : chPre [tick, tick, tick] body.data = false) :
    normalizeReply body = body := by
  unfold normalizeReply stripFenceChars
  rw [h1, h2]
  rfl

/-- C4: for every body text with no surrounding whitespace that does not
itself start with a fence marker, the extraction adapter gives
identical results on the fenced reply and on the bare reply — for every
parse function, i.e. for every JSON body. -/
theorem c4_fence_invariance (parse : String → Except String Json) (body : String)
    (h1 : pyStrip body = body)
    (h2 : chPre [tick, tick, tick] body.data = false) :
    extract_transaction_details parse ("```json\n" ++ body ++ "\n```") =
      extract_transaction_details parse body := by
  have h1c : pyStripChars body.data = body.data := congrArg String.data h1
  have hnorm : normalizeReply ("```json\n" ++ body ++ "\n```") = normalizeReply body := by
    rw [normalize_fenced, normalize_unfenced body h1c h2]
  unfold extract_transaction_details
  rw [hnorm]

/-- C4 witness: the invariance theorem applied to one JSON object
body. -/
theorem c4_witness :
    extract_transaction_details parseObjFix ("```json\n" ++ "\x7b\"a\": 1\x7d" ++ "\n```") =
      extract_transaction_details parseObjFix "\x7b\"a\": 1\x7d" :=
  c4_fence_invariance parseObjFix "\x7b\"a\": 1\x7d" rfl rfl

/-- C7 counterexample: the company column is not exactly 18 characters
wide — the `:<18` format pads but never truncates, so a 19-character
company name yields a 19-character field. -/
theorem c7_counterexample :
    ¬ ((pyLjust "ABCDEFGHIJKLMNOPQRS" 18).length = 18) := by
  decide

/-- C7 (amended): the company column is 18 wide only up to padding —
names longer than 18 characters are rendered in full, never truncated
(width is the maximum of 18 and the name's length); the amount is
rendered with thousands separators and exactly two decimal digits in a
field at least 9 wide; and a 75-dash separator line follows the header
and closes the table. -/
theorem c7_format :
    (∀ s : String, (pyLjust s 18).length = max 18 s.length) ∧
    (∀ q : ℚ, ∃ ip fr, fmtFixed2 q = ip ++ "." ++ fr ∧ fr.length = 2) ∧
    (∀ q : ℚ, (pyRjust (fmtFixed2 q) 9).length = max 9 (fmtFixed2 q).length) ∧
    (∀ rows : List LedgerRow, ∀ n : Nat,
      get_ledger_data ⟨true, rows, n⟩ =
        "\n=== Current Ledger ===\n" ++ headerLine ++ (repChar '-' 75 ++ "\n") ++
          String.join ((ledgerQuery ⟨true, rows, n⟩).map formatRow) ++
          (repChar '-' 75 ++ "\n")) := by
  refine ⟨?_, ?_, ?_, ?_⟩
  · intro s
    have : (repChar ' ' (18 - s.length)).length = 18 - s.length := by
      simp [repChar, String.length_mk]
    rw [pyLjust, String.length_append, this]
    omega
  · intro q
    exact ⟨(if q < 0 then "-" else "") ++
      groupDigits (toString (roundHalfEven (|q| * 100) / 100)),
      pad2 (roundHalfEven (|q| * 100) % 100), rfl, rfl⟩
  · intro q
    have : (repChar ' ' (9 - (fmtFixed2 q).length)).length = 9 - (fmtFixed2 q).length := by
      simp [repChar, String.length_mk]
    rw [pyRjust, String.length_append, this]
    omega
  · intro rows n
    rfl

/-- Inserting a row whose id is below every id in an `rKey`-sorted list
keeps the list `rKey`-sorted (the stability argument for one
`orderedInsert` step of the timestamp sort). -/
theorem pairwise_key_orderedInsert (x : LedgerRow) (l : List LedgerRow)
    (hl : l.Pairwise rKey) (hx : ∀ y ∈ l, x.id < y.id) :
    (List.orderedInsert tsDesc x l).Pairwise rKey := by
  induction l with
  | nil => simp [List.orderedInsert]
  | cons y l2 ih =>
    rw [List.orderedInsert]
    rcases List.pairwise_cons.mp hl with ⟨hyl, hl2⟩
    by_cases hxy : tsDesc x y
    · rw [if_pos hxy]
      refine List.Pairwise.cons ?_ hl
      intro z hz
      rcases List.mem_cons.mp hz with hz1 | hz2
      · subst hz1
        exact ⟨hxy, fun _ => hx z (List.mem_cons_self _ _)⟩
      · have hyz := hyl z hz2
        refine ⟨le_trans hyz.1 hxy, ?_⟩
        intro _
        exact hx z (List.mem_cons_of_mem _ hz2)
    · rw [if_neg hxy]
      refine List.Pairwise.cons ?_
        (ih hl2 (fun z hz => hx z (List.mem_cons_of_mem _ hz)))
      intro w hw
      rcases (List.mem_orderedInsert tsDesc).mp hw with hw1 | hw2
      · subst hw1
        have hlt : w.timestamp < y.timestamp := Nat.lt_of_not_le hxy
        exact ⟨le_of_lt hlt, fun ht => absurd ht (by omega)⟩
      · exact hyl w hw2

/-- The stable timestamp sort of a list whose ids ascend is
`rKey`-sorted. -/
theorem pairwise_key_insertionSort (l : List LedgerRow)
    (h : l.Pairwise (fun a b => a.id < b.id)) :
    (List.insertionSort tsDesc l).Pairwise rKey := by
  induction l with
  | nil => simp
  | cons a l2 ih =>
    rw [List.insertionSort]
    rcases List.pairwise_cons.mp h with ⟨hal, hl2⟩
    exact pairwise_key_orderedInsert a _ (ih hl2)
      (fun y hy => hal y ((List.perm_insertionSort tsDesc l2).mem_iff.mp hy))

/-- One successful insert preserves the store invariant and adds one
row. -/
theorem create_invoice_good (db : DB) (now : Nat) (cn : String) (a : ℚ)
    (pn : String) (k : Int) (h : GoodDB db) :
    GoodDB (create_invoice db now cn a pn k).2 ∧
      (create_invoice db now cn a pn k).2.rows.length = db.rows.length + 1 := by
  rcases h with ⟨hL, hBound, hPair⟩
  have hres : (create_invoice db now cn a pn k).2 =
      { db with rows := db.rows ++ [⟨db.nextId, cn, a, pn, k, now⟩],
                nextId := db.nextId + 1 } := by
    simp [create_invoice, hL]
  rw [hres]
  refine ⟨⟨hL, ?_, ?_⟩, by simp⟩
  · intro r hr
    rcases List.mem_append.mp hr with hr1 | hr2
    · exact Nat.lt_succ_of_lt (hBound r hr1)
    · rw [List.mem_singleton.mp hr2]
      exact Nat.lt_succ_self _
  · rw [List.pairwise_append]
    refine ⟨hPair, List.pairwise_singleton _ _, ?_⟩
    intro r hr r2 hr2
    rw [List.mem_singleton.mp hr2]
    exact hBound r hr

/-- A run of inserts preserves the store invariant and adds one row per
insert. -/
theorem insertAll_good (xs : List InsertSpec) : ∀ (db : DB), GoodDB db →
    GoodDB (insertAll db xs) ∧
      (insertAll db xs).rows.length = db.rows.length + xs.length := by
  induction xs with
  | nil =>
    intro db h
    exact ⟨h, by simp [insertAll]⟩
  | cons x rest ih =>
    intro db h
    obtain ⟨h1, h2⟩ := create_invoice_good db x.time x.company_name
      x.amount_paid x.product_name x.num_units h
    obtain ⟨hg, hlen⟩ := ih _ h1
    refine ⟨by simp only [insertAll]; exact hg, ?_⟩
    simp only [insertAll, List.length_cons]
    rw [hlen, h2]
    omega

/-- C3 counterexample: two inserts with equal timestamps come back in
insertion order (ids [1, 2]), not most-recent-insert-first ([2, 1]) —
the query has no tiebreaker that favours later inserts. -/
theorem c3_counterexample :
    (ledgerQuery dbTie).map (fun r => r.id) = [1, 2] ∧
    ¬ ((ledgerQuery dbTie).map (fun r => r.id) = [2, 1]) := by
  constructor <;> decide

/-- C3 (amended): after N successful inserts the full-ledger read
returns exactly N entries, ordered by timestamp descending, and entries
with equal timestamps appear in insertion order — the earliest insert
first, not the most recent. -/
theorem c3_order (xs : List InsertSpec) :
    (ledgerQuery (insertAll (setup_database emptyDB) xs)).length = xs.length ∧
    (ledgerQuery (insertAll (setup_database emptyDB) xs)).Pairwise
      (fun a b => b.timestamp ≤ a.timestamp) ∧
    (ledgerQuery (insertAll (setup_database emptyDB) xs)).Pairwise
      (fun a b => a.timestamp = b.timestamp → a.id < b.id) := by
  have hgood0 : GoodDB (setup_database emptyDB) := by
    refine ⟨rfl, ?_, ?_⟩ <;> simp [setup_database, emptyDB]
  obtain ⟨⟨hL, hB, hP⟩, hlen⟩ := insertAll_good xs _ hgood0
  have hkey := pairwise_key_insertionSort _ hP
  refine ⟨?_, ?_, ?_⟩
  · rw [ledgerQuery, List.length_insertionSort, hlen]
    simp [setup_database, emptyDB]
  · exact hkey.imp (fun h => h.1)
  · exact hkey.imp (fun h => h.2)

end InvoiceAgent
